import Mathlib

/-!
Shallow embedding of the kafkalib message dispatch and decoding pipeline
(consumer.go: Consume, decodeMessageValue, processMessage; producer.go:
Produce) together with the external collaborators it delegates to (Kafka
client, schema registry, Avro codec), which are modelled abstractly as
function-valued parameters.

Go-specific semantics that the claims depend on are embedded explicitly:
  * a Go byte slice carries both a length and a capacity over an underlying
    array; `cap` inspects the capacity, and re-slicing `s[low:high]` is legal
    whenever `low ≤ high ≤ cap s`, panicking otherwise;
  * `panic` aborts a computation and is caught only by a deferred `recover`
    in the SAME goroutine; a panic inside a goroutine started with `go`
    escapes any recover of the spawning goroutine and crashes the process.
-/

/-- A Go byte slice: the underlying array from the slice start to the end of
its capacity, plus the visible length. `cap` is the array length. Bytes are
naturals below 256. -/
structure GoSlice where
  data : List Nat
  len : Nat
deriving DecidableEq, Repr

/-- Go `cap(s)`. -/
def GoSlice.cap (s : GoSlice) : Nat := s.data.length

/-- The bytes visible through the slice header: the first `len` bytes of the
underlying array. -/
def GoSlice.bytes (s : GoSlice) : List Nat := s.data.take s.len

/-- A freshly allocated slice (Go `make` + copy, or a `[]byte` returned by a
library): length equals capacity. -/
def mkSlice (l : List Nat) : GoSlice := ⟨l, l.length⟩

/-- Payloads delivered by the Kafka client's `ReadMessage` are built by
`C.GoBytes` (make + copy), so their length equals their capacity. -/
def fromWire (s : GoSlice) : Prop := s.len = s.data.length

instance (s : GoSlice) : Decidable (fromWire s) := by
  unfold fromWire; infer_instance

/-- A `kafka.Message`: the `Value` payload plus topic/partition/offset
metadata from `TopicPartition`. -/
structure KafkaMessage where
  value : GoSlice
  topic : String
  partition : Int
  offset : Int
deriving DecidableEq, Repr

/-- `binary.BigEndian.Uint32` over four bytes, most significant first. -/
def beUint32 (b0 b1 b2 b3 : Nat) : Nat :=
  b0 * 16777216 + b1 * 65536 + b2 * 256 + b3

/-- The i-th byte of the underlying array (only read at indices below the
capacity, where the default is never used). -/
def sliceGet (s : GoSlice) (i : Nat) : Nat := s.data.getD i 0

/-- The schema identifier of a framed payload:
`binary.BigEndian.Uint32(msg.Value[1:5])`. Re-slicing `[1:5]` reads the
underlying array at indices 1..4 (legal whenever `5 ≤ cap`, independent of
the visible length). -/
def schemaIdOf (s : GoSlice) : Nat :=
  beUint32 (sliceGet s 1) (sliceGet s 2) (sliceGet s 3) (sliceGet s 4)

/-- The textual rendering `string(msg.Value)` used in log lines. -/
def payloadStr (s : GoSlice) : String := toString s.bytes

/-- The Avro codec obtained from a resolved schema (`schema.Codec()`), an
external goavro collaborator. `nativeFromBinary` returns the decoded native
value, the unread remainder of the buffer, and an error; `textualFromNative`
(called with a nil initial buffer) returns the textual bytes and an error.
A nil native value or an error is represented with `Option`. -/
structure Codec (N : Type) where
  nativeFromBinary : List Nat → Option N × List Nat × Option String
  textualFromNative : Option N → List Nat × Option String

/-- The schema registry collaborator (`srclient`): `getSchema` looks a schema
up by its integer identifier and either resolves it (giving access to its
codec) or fails with an error. -/
structure Registry (N : Type) where
  getSchema : Nat → Except String (Codec N)

/-- Outcome of running a piece of Go code in one goroutine: a normal result,
or a panic carrying its message. -/
inductive GoOutcome (α : Type) where
  | ok (a : α)
  | panicked (msg : String)
deriving DecidableEq, Repr

/-- Embeds `decodeMessageValue` (consumer.go lines 99-112). Returns the log
lines it prints and either the (possibly rewritten) message or a panic.
  * `cap(msg.Value) < 6`: log the raw payload as unparseable and return the
    message unchanged;
  * read the schema id from bytes 1..4 of the underlying array and look it
    up; a lookup error raises a panic;
  * `msg.Value[5:]` panics when the visible length is below 5 (Go slice
    bounds); otherwise the codec decodes the visible bytes from offset 5,
    both codec error results are discarded, and the payload is replaced by
    the textual bytes. -/
def decodeMessageValue {N : Type} (reg : Registry N) (msg : KafkaMessage) :
    List String × GoOutcome KafkaMessage :=
  if msg.value.cap < 6 then
    (["Failed to get schema id from message: " ++ payloadStr msg.value],
      GoOutcome.ok msg)
  else
    let schemaID := schemaIdOf msg.value
    match reg.getSchema schemaID with
    | Except.error e =>
        ([], GoOutcome.panicked
          ("Error getting the schema with id '" ++ toString schemaID ++ "' " ++ e))
    | Except.ok schema =>
        if msg.value.len < 5 then
          ([], GoOutcome.panicked "runtime error: slice bounds out of range")
        else
          let native := (schema.nativeFromBinary (msg.value.bytes.drop 5)).1
          let value := (schema.textualFromNative native).1
          ([], GoOutcome.ok { msg with value := mkSlice value })

/-- The payload produced by the decode step when the schema resolves: the
textual re-encoding of the native value decoded from the bytes after the
5-byte framing header; both codec error components are dropped. -/
def decodedValue {N : Type} (codec : Codec N) (s : GoSlice) : GoSlice :=
  mkSlice (codec.textualFromNative (codec.nativeFromBinary (s.bytes.drop 5)).1).1

/-- Embeds `processMessage` (consumer.go lines 114-128). The deferred
`recover` catches a panic raised by `decodeMessageValue` (same goroutine)
and logs it. Returns the log lines and the argument of the spawned
`go f(msg)` goroutine, or `none` when the recover fired and the handler was
never started. The handler itself runs in the NEW goroutine, outside this
recover boundary. -/
def processMessage {N : Type} (url : String) (reg : Registry N)
    (msg : KafkaMessage) : List String × Option KafkaMessage :=
  let hdr := "schemaRegistryUrl: " ++ url
  if url ≠ "" then
    match decodeMessageValue reg msg with
    | (dlogs, GoOutcome.panicked e) =>
        (hdr :: dlogs ++ ["Panic occurred: " ++ e], none)
    | (dlogs, GoOutcome.ok m) =>
        (hdr :: dlogs ++ ["Calling function with kafka message"], some m)
  else
    ([hdr, "Calling function with kafka message"], some msg)

/-- A user-supplied handler: consumes one message and either returns or
panics. -/
def Handler : Type := KafkaMessage → GoOutcome Unit

/-- Observable state of a run of the receive loop: the messages the handler
was invoked with (in invocation order) and, when a goroutine panicked with
no recover in scope, the panic that crashed the process. -/
structure RunState where
  dispatched : List KafkaMessage
  crashed : Option String
deriving DecidableEq, Repr

/-- Runs the goroutine spawned by `processMessage` (if any): the handler
invocation is recorded; a panic inside this goroutine has no recover in
scope, so it crashes the process (Go semantics for `go f(msg)`). -/
def runHandler (f : Handler) (st : RunState) : Option KafkaMessage → RunState
  | none => st
  | some m =>
      match f m with
      | GoOutcome.ok _ => { st with dispatched := st.dispatched ++ [m] }
      | GoOutcome.panicked e =>
          { dispatched := st.dispatched ++ [m], crashed := some e }

/-- Embeds the receive loop of `Consume` (consumer.go lines 85-94) on a
finite prefix of `ReadMessage` results. Each iteration logs, then on a
receive error logs it and continues; otherwise it calls `processMessage`.
Scheduling model: the spawned handler goroutine runs to completion before
the next `ReadMessage` (one admissible Go interleaving); an unrecovered
panic in that goroutine crashes the process, ending the run. Returns the
accumulated log and the final run state. -/
def consumeLoop {N : Type} (url : String) (reg : Registry N) (f : Handler) :
    List (Except String KafkaMessage) → RunState → List String × RunState
  | [], st => ([], st)
  | Except.error e :: rest, st =>
      let r := consumeLoop url reg f rest st
      ("New message received" :: ("Consumer error: " ++ e) :: r.1, r.2)
  | Except.ok msg :: rest, st =>
      let p := processMessage url reg msg
      let st' := runHandler f st p.2
      match st'.crashed with
      | some _ => ("New message received" :: p.1, st')
      | none =>
          let r := consumeLoop url reg f rest st'
          ("New message received" :: p.1 ++ r.1, r.2)

/-- Whether a `ReadMessage` result is a successfully received record. -/
def isOkEvent : Except String KafkaMessage → Bool
  | Except.ok _ => true
  | Except.error _ => false

/-- Embeds the consumer `ConfigMap` construction of `Consume` (consumer.go
lines 25-56): each environment value falls back to its hard-coded default
when unset (`os.Getenv` returns `""`), the map is built with `group.id`
`"default"` and `auto.offset.reset` `"latest"`, and a non-empty
`KAFKA_CONSUMER_GROUP_ID` overrides `group.id` via `SetKey`. The map is an
association list whose lookup takes the most recent binding. -/
def consumerConfigMap (env : String → String) : List (String × String) :=
  let maxPollInt :=
    if env "KAFKA_MAX_POLL_INTERVAL" = "" then "300000"
    else env "KAFKA_MAX_POLL_INTERVAL"
  let sessTimeout :=
    if env "KAFKA_SESSION_TIMEOUT_MS" = "" then "30000"
    else env "KAFKA_SESSION_TIMEOUT_MS"
  let autoCommitInt :=
    if env "KAFKA_AUTO_COMMIT_INTERVAL_MS" = "" then "5000"
    else env "KAFKA_AUTO_COMMIT_INTERVAL_MS"
  let cm : List (String × String) :=
    [("bootstrap.servers", env "KAFKA_BROKER_URL"),
     ("security.protocol", env "KAFKA_BROKER_SECURITY_PROTOCOL"),
     ("sasl.mechanism", env "KAFKA_BROKER_SASL_MECHANISM"),
     ("sasl.username", env "KAFKA_BROKER_SASL_USERNAME"),
     ("sasl.password", env "KAFKA_BROKER_SASL_PASSWORD"),
     ("max.poll.interval.ms", maxPollInt),
     ("session.timeout.ms", sessTimeout),
     ("auto.commit.interval.ms", autoCommitInt),
     ("auto.offset.reset", "latest"),
     ("group.id", "default")]
  let groupId := env "KAFKA_CONSUMER_GROUP_ID"
  if groupId ≠ "" then ("group.id", groupId) :: cm else cm

/-- Lookup in the configuration map (most recent binding wins). -/
def cfgGet : List (String × String) → String → Option String
  | [], _ => none
  | (k', v) :: rest, k => if k' = k then some v else cfgGet rest k

/-- The producer connection collaborator (`kafka.Producer`): its `String()`
form, which is non-empty for any connection the client actually created
(e.g. `"rdkafka#producer-1"`). -/
structure ProducerConn where
  str : String
deriving DecidableEq, Repr

/-- `producer.String()` on the package-level variable. The variable starts
out as a nil `*kafka.Producer`, and `(*Producer).String()` selects
`p.handle` through the receiver with no nil guard, so calling it on the nil
singleton is a nil-pointer dereference: a runtime panic, not an empty
string. On an established connection it returns the connection's (non-empty)
string form. -/
def producerString : Option ProducerConn → GoOutcome String
  | none =>
      GoOutcome.panicked
        "runtime error: invalid memory address or nil pointer dereference"
  | some p => GoOutcome.ok p.str

/-- Side effects of one `Produce` call that reach the outside world: whether
the delivery-report listener goroutine was started, the enqueued message,
and the flush timeout passed to `producer.Flush` (milliseconds). -/
structure ProduceEffects where
  listenerSpawned : Bool
  producedTopic : Option String
  producedValue : Option String
  flushTimeoutMs : Option Nat
deriving DecidableEq, Repr

/-- The effects of the body of `Produce` after the producer exists: spawn the
delivery-report listener, enqueue the message asynchronously, flush with the
fixed 15-second bound. -/
def produceBody (topic msgStr : String) : ProduceEffects :=
  { listenerSpawned := true
    producedTopic := some topic
    producedValue := some msgStr
    flushTimeoutMs := some (15 * 1000) }

/-- Embeds `Produce` (producer.go lines 14-49). `st` is the package-level
`producer` singleton (initially the nil pointer, i.e. `none`); `newProducer`
is the result `kafka.NewProducer` would return if called. The guard
`producer.String() == ""` evaluates `String()` on the singleton first: on
the nil singleton that call itself panics (see `producerString`), and
`Produce` has no recover, so the whole call panics before `kafka.NewProducer`
is ever reached. When the guard does return a string, an empty one triggers
lazy creation (returning a creation error to the caller), and otherwise the
body runs and `Produce` returns nil. On normal return the result carries the
updated singleton, the effects, and the call's return value. -/
def Produce (st : Option ProducerConn) (newProducer : Except String ProducerConn)
    (topic msgStr : String) :
    GoOutcome (Option ProducerConn × ProduceEffects × Except String Unit) :=
  match producerString st with
  | GoOutcome.panicked e => GoOutcome.panicked e
  | GoOutcome.ok s =>
      if s = "" then
        match newProducer with
        | Except.error err =>
            GoOutcome.ok
              (st, { listenerSpawned := false, producedTopic := none,
                     producedValue := none, flushTimeoutMs := none },
                Except.error err)
        | Except.ok p =>
            GoOutcome.ok (some p, produceBody topic msgStr, Except.ok ())
      else
        GoOutcome.ok (st, produceBody topic msgStr, Except.ok ())

/-- The delivery-report listener goroutine's reaction to one producer event:
for a message event it only prints a log line, chosen by whether the
`TopicPartition` carries an error; nothing is ever handed back to the
`Produce` caller. -/
def deliveryReport (tp : String) (deliveryErr : Option String) : String :=
  match deliveryErr with
  | some _ => "Delivery failed: " ++ tp
  | none => "Delivered message to " ++ tp

/-- Sample two-byte message (length 2 = capacity 2, below the framing
minimum). -/
def sampleMsg1 : KafkaMessage := ⟨mkSlice [104, 105], "topic", 0, 0⟩

/-- Sample three-byte message. -/
def sampleMsg2 : KafkaMessage := ⟨mkSlice [98, 121, 101], "topic", 0, 1⟩

/-- A registry whose lookups always fail. -/
def emptyRegistry : Registry Unit := ⟨fun _ => Except.error "no schema"⟩

/-- A six-byte framed message whose schema id is 7. -/
def framedMsg : KafkaMessage := ⟨mkSlice [0, 0, 0, 0, 7, 42], "topic", 0, 2⟩

/-- A handler that always panics. -/
def panicHandler : Handler := fun _ => GoOutcome.panicked "handler panic"

/-- A codec over the unit native type: any buffer decodes to the unit value
and its textual form is the four bytes of `"null"`; a valid Avro encoding of
the unit value is the empty byte string. -/
def cexCodec : Codec Unit :=
  { nativeFromBinary := fun _ => (some (), ([], none))
    textualFromNative := fun _ => ([110, 117, 108, 108], none) }

/-- A registry that resolves every schema id to `cexCodec`. -/
def cexRegistry : Registry Unit := ⟨fun _ => Except.ok cexCodec⟩

/-- Reparsing the textual form of `cexCodec`: only the four bytes of
`"null"` parse back to the unit native value. -/
def cexParse : List Nat → Option Unit :=
  fun s => if s = [110, 117, 108, 108] then some () else none

/-- A framed payload whose schema-encoded body is empty: marker byte plus
the big-endian id 1 and nothing else (5 bytes in total). -/
def cexMsg : KafkaMessage := ⟨mkSlice [0, 0, 0, 0, 1], "topic", 0, 3⟩

/-- A codec over natural-number native values: the binary encoding of `n` is
the one-byte buffer `[n]`, and the textual form of `n` is `[110, n]`. -/
def natCodec : Codec Nat :=
  { nativeFromBinary := fun b => (b.head?, ([], none))
    textualFromNative := fun o => ((o.map fun n => [110, n]).getD [], none) }

/-- Reparsing the textual form of `natCodec`. -/
def natParse : List Nat → Option Nat
  | [110, n] => some n
  | _ => none

/-- A registry that resolves every schema id to `natCodec`. -/
def natRegistry : Registry Nat := ⟨fun _ => Except.ok natCodec⟩

/-! Helper lemmas about the slice model. -/

lemma mkSlice_bytes (l : List Nat) : (mkSlice l).bytes = l := by
  simp [mkSlice, GoSlice.bytes]

lemma mkSlice_len (l : List Nat) : (mkSlice l).len = l.length := rfl

lemma mkSlice_cap (l : List Nat) : (mkSlice l).cap = l.length := rfl

lemma fromWire_cap {s : GoSlice} (hw : fromWire s) : s.cap = s.len := by
  unfold fromWire at hw
  unfold GoSlice.cap
  exact hw.symm

/-- C4: with no schema registry configured (empty registry URL),
`processMessage` hands the handler the message unchanged; the result does
not depend on the registry collaborator, so `decodeMessageValue` is never
consulted. -/
theorem no_registry_identity_passthrough {N : Type} (reg : Registry N)
    (msg : KafkaMessage) :
    processMessage "" reg msg =
      (["schemaRegistryUrl: " ++ "", "Calling function with kafka message"],
        some msg) := by
  simp [processMessage]

/-- C8: when the corresponding environment variables are unset (`os.Getenv`
returns `""`), the consumer configuration receives the documented defaults:
max.poll.interval.ms 300000, session.timeout.ms 30000,
auto.commit.interval.ms 5000, group.id "default", auto.offset.reset
"latest". -/
theorem consumer_config_defaults (env : String → String)
    (h1 : env "KAFKA_MAX_POLL_INTERVAL" = "")
    (h2 : env "KAFKA_SESSION_TIMEOUT_MS" = "")
    (h3 : env "KAFKA_AUTO_COMMIT_INTERVAL_MS" = "")
    (h4 : env "KAFKA_CONSUMER_GROUP_ID" = "") :
    cfgGet (consumerConfigMap env) "max.poll.interval.ms" = some "300000" ∧
    cfgGet (consumerConfigMap env) "session.timeout.ms" = some "30000" ∧
    cfgGet (consumerConfigMap env) "auto.commit.interval.ms" = some "5000" ∧
    cfgGet (consumerConfigMap env) "group.id" = some "default" ∧
    cfgGet (consumerConfigMap env) "auto.offset.reset" = some "latest" := by
  simp [consumerConfigMap, h1, h2, h3, h4, cfgGet]

/-- Closed witness for `consumer_config_defaults` at the fully unset
environment. -/
theorem consumer_config_defaults_witness :
    ((fun _ => "") : String → String) "KAFKA_MAX_POLL_INTERVAL" = "" ∧
    cfgGet (consumerConfigMap (fun _ => "")) "max.poll.interval.ms" = some "300000" ∧
    cfgGet (consumerConfigMap (fun _ => "")) "group.id" = some "default" ∧
    cfgGet (consumerConfigMap (fun _ => "")) "auto.offset.reset" = some "latest" := by
  refine ⟨rfl, ?_, ?_, ?_⟩
  · exact (consumer_config_defaults (fun _ => "") rfl rfl rfl rfl).1
  · exact (consumer_config_defaults (fun _ => "") rfl rfl rfl rfl).2.2.2.1
  · exact (consumer_config_defaults (fun _ => "") rfl rfl rfl rfl).2.2.2.2

/-- C2: with a registry configured, a wire payload shorter than 6 bytes makes
`decodeMessageValue` skip decoding, log the raw payload as unparseable and
return the message unchanged with no panic; `processMessage` then still
reaches the handler spawn, and the receive loop carries on to the next
record. -/
theorem short_payload_skips_decode {N : Type} (reg : Registry N)
    (url : String) (msg : KafkaMessage)
    (hw : fromWire msg.value) (hlen : msg.value.len < 6) (hurl : url ≠ "") :
    decodeMessageValue reg msg =
      (["Failed to get schema id from message: " ++ payloadStr msg.value],
        GoOutcome.ok msg) ∧
    processMessage url reg msg =
      (["schemaRegistryUrl: " ++ url,
        "Failed to get schema id from message: " ++ payloadStr msg.value,
        "Calling function with kafka message"], some msg) ∧
    (∀ (f : Handler) rest st, f msg = GoOutcome.ok () → st.crashed = none →
      (consumeLoop url reg f (Except.ok msg :: rest) st).2 =
        (consumeLoop url reg f rest ⟨st.dispatched ++ [msg], none⟩).2) := by
  have hcap : msg.value.cap < 6 := by
    rw [fromWire_cap hw]; exact hlen
  have hdec : decodeMessageValue reg msg =
      (["Failed to get schema id from message: " ++ payloadStr msg.value],
        GoOutcome.ok msg) := by
    simp [decodeMessageValue, hcap]
  have hproc : processMessage url reg msg =
      (["schemaRegistryUrl: " ++ url,
        "Failed to get schema id from message: " ++ payloadStr msg.value,
        "Calling function with kafka message"], some msg) := by
    simp [processMessage, hurl, hdec]
  refine ⟨hdec, hproc, ?_⟩
  intro f rest st hf hst
  have hrun : runHandler f st (processMessage url reg msg).2 =
      ⟨st.dispatched ++ [msg], none⟩ := by
    rw [hproc]
    simp [runHandler, hf]
    cases st with
    | mk d c => cases hst; rfl
  simp only [consumeLoop, hrun]

/-- Closed witness for `short_payload_skips_decode` at a concrete 2-byte
message and registry URL. -/
theorem short_payload_skips_decode_witness :
    fromWire sampleMsg1.value ∧ sampleMsg1.value.len < 6 ∧
    ("http://registry" : String) ≠ "" ∧
    decodeMessageValue emptyRegistry sampleMsg1 =
      (["Failed to get schema id from message: " ++ payloadStr sampleMsg1.value],
        GoOutcome.ok sampleMsg1) := by
  refine ⟨by decide, by decide, by decide, ?_⟩
  exact (short_payload_skips_decode emptyRegistry "http://registry" sampleMsg1
    (by decide) (by decide) (by decide)).1

/-- C9: the decode step rewrites only the payload: whenever
`decodeMessageValue` returns a message, or `processMessage` spawns the
handler with a message, that message's topic, partition and offset equal
those of the input message. -/
theorem decode_preserves_metadata {N : Type} (reg : Registry N)
    (url : String) (msg m' : KafkaMessage) :
    (∀ l, decodeMessageValue reg msg = (l, GoOutcome.ok m') →
      m'.topic = msg.topic ∧ m'.partition = msg.partition ∧
        m'.offset = msg.offset) ∧
    (∀ l, processMessage url reg msg = (l, some m') →
      m'.topic = msg.topic ∧ m'.partition = msg.partition ∧
        m'.offset = msg.offset) := by
  have hd : ∀ l, decodeMessageValue reg msg = (l, GoOutcome.ok m') →
      m'.topic = msg.topic ∧ m'.partition = msg.partition ∧
        m'.offset = msg.offset := by
    intro l h
    simp only [decodeMessageValue] at h
    by_cases hcap : msg.value.cap < 6
    · rw [if_pos hcap] at h
      simp only [Prod.mk.injEq, GoOutcome.ok.injEq] at h
      rw [← h.2]
      exact ⟨rfl, rfl, rfl⟩
    · rw [if_neg hcap] at h
      cases hg : reg.getSchema (schemaIdOf msg.value) with
      | error e => rw [hg] at h; simp at h
      | ok schema =>
        rw [hg] at h
        dsimp only at h
        by_cases hl : msg.value.len < 5
        · rw [if_pos hl] at h; simp at h
        · rw [if_neg hl] at h
          simp only [Prod.mk.injEq, GoOutcome.ok.injEq] at h
          rw [← h.2]
          exact ⟨rfl, rfl, rfl⟩
  refine ⟨hd, ?_⟩
  intro l h
  unfold processMessage at h
  split at h
  · split at h
    · simp at h
    · rename_i dlogs m heq
      simp only [Prod.mk.injEq, Option.some.injEq] at h
      exact h.2 ▸ hd dlogs (by rw [heq, h.2])
  · simp only [Prod.mk.injEq, Option.some.injEq] at h
    rw [← h.2]
    exact ⟨rfl, rfl, rfl⟩

/-- Closed witness for `decode_preserves_metadata`: the short-payload path
returns the message itself, whose metadata is trivially preserved. -/
theorem decode_preserves_metadata_witness :
    sampleMsg1.topic = sampleMsg1.topic ∧
    sampleMsg1.partition = sampleMsg1.partition ∧
    sampleMsg1.offset = sampleMsg1.offset := by
  exact (decode_preserves_metadata emptyRegistry "http://registry" sampleMsg1
    sampleMsg1).1
    ["Failed to get schema id from message: " ++ payloadStr sampleMsg1.value]
    (by decide)

/-- C3: with a registry configured and a payload long enough to be framed, a
failed schema lookup makes `decodeMessageValue` panic; the panic is caught
by the recover boundary of `processMessage` and logged, the handler is never
spawned for that message, and the receive loop's state proceeds exactly as
if the message were absent. -/
theorem schema_lookup_failure_contained {N : Type} (reg : Registry N)
    (url : String) (msg : KafkaMessage) (e : String)
    (hurl : url ≠ "") (hw : fromWire msg.value) (hlen : 6 ≤ msg.value.len)
    (hs : reg.getSchema (schemaIdOf msg.value) = Except.error e) :
    decodeMessageValue reg msg =
      ([], GoOutcome.panicked ("Error getting the schema with id '" ++
        toString (schemaIdOf msg.value) ++ "' " ++ e)) ∧
    (processMessage url reg msg).2 = none ∧
    ("Panic occurred: " ++ ("Error getting the schema with id '" ++
        toString (schemaIdOf msg.value) ++ "' " ++ e)) ∈
      (processMessage url reg msg).1 ∧
    (∀ (f : Handler) rest st, st.crashed = none →
      (consumeLoop url reg f (Except.ok msg :: rest) st).2 =
        (consumeLoop url reg f rest st).2) := by
  have hcap : ¬ msg.value.cap < 6 := by
    rw [fromWire_cap hw]; omega
  have hdec : decodeMessageValue reg msg =
      ([], GoOutcome.panicked ("Error getting the schema with id '" ++
        toString (schemaIdOf msg.value) ++ "' " ++ e)) := by
    simp only [decodeMessageValue]
    rw [if_neg hcap, hs]
  have hproc : processMessage url reg msg =
      (["schemaRegistryUrl: " ++ url,
        "Panic occurred: " ++ ("Error getting the schema with id '" ++
          toString (schemaIdOf msg.value) ++ "' " ++ e)], none) := by
    simp [processMessage, hurl, hdec]
  refine ⟨hdec, by rw [hproc], by rw [hproc]; simp, ?_⟩
  intro f rest st hst
  have hrun : runHandler f st (processMessage url reg msg).2 = st := by
    rw [hproc]
    rfl
  simp only [consumeLoop, hrun, hst]

/-- Closed witness for `schema_lookup_failure_contained`: the failing lookup
of schema id 7 is contained and the handler never sees the message. -/
theorem schema_lookup_failure_contained_witness :
    ("http://registry" : String) ≠ "" ∧ fromWire framedMsg.value ∧
    6 ≤ framedMsg.value.len ∧
    emptyRegistry.getSchema (schemaIdOf framedMsg.value) =
      Except.error "no schema" ∧
    (processMessage "http://registry" emptyRegistry framedMsg).2 = none := by
  refine ⟨by decide, by decide, by decide, rfl, ?_⟩
  exact (schema_lookup_failure_contained emptyRegistry "http://registry"
    framedMsg "no schema" (by decide) (by decide) (by decide) rfl).2.1

/-- C10: when the payload is long enough and the schema lookup succeeds, the
error results of both `NativeFromBinary` and `TextualFromNative` are
discarded: the outcome is determined by their first components alone, the
payload is unconditionally replaced by the produced textual bytes, no panic
is raised, and the handler is still spawned with the replaced payload. -/
theorem codec_errors_discarded {N : Type} (reg : Registry N)
    (url : String) (msg : KafkaMessage) (codec : Codec N)
    (hurl : url ≠ "") (hw : fromWire msg.value) (hlen : 6 ≤ msg.value.len)
    (hs : reg.getSchema (schemaIdOf msg.value) = Except.ok codec) :
    decodeMessageValue reg msg =
      ([], GoOutcome.ok { msg with value := decodedValue codec msg.value }) ∧
    (processMessage url reg msg).2 =
      some { msg with value := decodedValue codec msg.value } := by
  have hcap : ¬ msg.value.cap < 6 := by
    rw [fromWire_cap hw]; omega
  have hl5 : ¬ msg.value.len < 5 := by omega
  have hdec : decodeMessageValue reg msg =
      ([], GoOutcome.ok { msg with value := decodedValue codec msg.value }) := by
    simp only [decodeMessageValue]
    rw [if_neg hcap, hs]
    dsimp only
    rw [if_neg hl5]
    rfl
  refine ⟨hdec, ?_⟩
  simp [processMessage, hurl, hdec]

/-- Closed witness for `codec_errors_discarded` at the concrete framed
message and the always-resolving registry. -/
theorem codec_errors_discarded_witness :
    ("http://registry" : String) ≠ "" ∧ fromWire framedMsg.value ∧
    6 ≤ framedMsg.value.len ∧
    cexRegistry.getSchema (schemaIdOf framedMsg.value) = Except.ok cexCodec ∧
    (processMessage "http://registry" cexRegistry framedMsg).2 =
      some { framedMsg with value := decodedValue cexCodec framedMsg.value } := by
  refine ⟨by decide, by decide, by decide, rfl, ?_⟩
  exact (codec_errors_discarded cexRegistry "http://registry" framedMsg
    cexCodec (by decide) (by decide) (by decide) rfl).2

lemma consumeLoop_state_filter {N : Type} (url : String) (reg : Registry N)
    (f : Handler) :
    ∀ (events : List (Except String KafkaMessage)) (st : RunState),
      (consumeLoop url reg f events st).2 =
        (consumeLoop url reg f (events.filter isOkEvent) st).2 := by
  intro events
  induction events with
  | nil => intro st; rfl
  | cons ev rest ih =>
    intro st
    cases ev with
    | error e =>
      have hf : (Except.error e :: rest).filter isOkEvent =
          rest.filter isOkEvent := by
        simp [List.filter, isOkEvent]
      rw [hf]
      simpa only [consumeLoop] using ih st
    | ok msg =>
      have hf : (Except.ok msg :: rest).filter isOkEvent =
          Except.ok msg :: rest.filter isOkEvent := by
        simp [List.filter, isOkEvent]
      rw [hf]
      simp only [consumeLoop]
      cases hc : (runHandler f st (processMessage url reg msg).2).crashed with
      | some c => simp only [hc]
      | none =>
        simp only [hc]
        exact ih (runHandler f st (processMessage url reg msg).2)

/-- C6: a receive error is logged and the loop just continues: dropping the
errored iteration leaves the run state untouched, and more generally the
run state of any event sequence equals that of its successfully received
subsequence — receive errors never dispatch a record and never terminate
the loop. -/
theorem receive_errors_never_stop_loop {N : Type} (url : String)
    (reg : Registry N) (f : Handler) (e : String)
    (rest events : List (Except String KafkaMessage)) (st : RunState) :
    ("Consumer error: " ++ e) ∈
      (consumeLoop url reg f (Except.error e :: rest) st).1 ∧
    (consumeLoop url reg f (Except.error e :: rest) st).2 =
      (consumeLoop url reg f rest st).2 ∧
    (consumeLoop url reg f events st).2 =
      (consumeLoop url reg f (events.filter isOkEvent) st).2 := by
  refine ⟨?_, rfl, consumeLoop_state_filter url reg f events st⟩
  simp [consumeLoop]

/-- C1 (code bug): the doc comment of `Consume` promises that a panic thrown
by `f` "will be caught and handled", but `processMessage` runs the handler
with `go f(msg)`: the deferred recover lives in the spawning goroutine, so a
handler panic is uncontained and crashes the process. With two received
records and a handler that panics, the first record is dispatched, the
process crashes, and the second record is never dispatched. -/
theorem goroutine_panic_kills_second_dispatch :
    (consumeLoop "" emptyRegistry panicHandler
        [Except.ok sampleMsg1, Except.ok sampleMsg2] ⟨[], none⟩).2 =
      ⟨[sampleMsg1], some "handler panic"⟩ ∧
    sampleMsg2 ∉ (consumeLoop "" emptyRegistry panicHandler
        [Except.ok sampleMsg1, Except.ok sampleMsg2] ⟨[], none⟩).2.dispatched := by
  refine ⟨rfl, ?_⟩
  decide

/-- C5 (amended): for a framed payload with a NONEMPTY schema-encoded body
whose schema id resolves, the decode pipeline replaces the payload with the
textual re-encoding of the decoded native value, and that textual payload
reparses to the original native value whenever the collaborator codec
round-trips (binary decode inverts the encoding that produced the body, and
textual parse inverts textual encode). -/
theorem framed_payload_roundtrip {N : Type} (reg : Registry N)
    (codec : Codec N) (parse : List Nat → Option N) (v : N)
    (b0 b1 b2 b3 b4 : Nat) (body : List Nat)
    (topic : String) (part off : Int)
    (hbody : 1 ≤ body.length)
    (hdec : (codec.nativeFromBinary body).1 = some v)
    (htxt : parse (codec.textualFromNative (some v)).1 = some v)
    (hs : reg.getSchema (beUint32 b1 b2 b3 b4) = Except.ok codec) :
    decodeMessageValue reg
        ⟨mkSlice (b0 :: b1 :: b2 :: b3 :: b4 :: body), topic, part, off⟩ =
      ([], GoOutcome.ok
        ⟨mkSlice (codec.textualFromNative (some v)).1, topic, part, off⟩) ∧
    parse (mkSlice (codec.textualFromNative (some v)).1).bytes = some v := by
  have hcap : ¬ (mkSlice (b0 :: b1 :: b2 :: b3 :: b4 :: body)).cap < 6 := by
    rw [mkSlice_cap]
    simp only [List.length_cons]
    omega
  have hid : schemaIdOf (mkSlice (b0 :: b1 :: b2 :: b3 :: b4 :: body)) =
      beUint32 b1 b2 b3 b4 := by
    simp [schemaIdOf, sliceGet, mkSlice, List.getD]
  have hl5 : ¬ (mkSlice (b0 :: b1 :: b2 :: b3 :: b4 :: body)).len < 5 := by
    rw [mkSlice_len]
    simp only [List.length_cons]
    omega
  have hdrop : (mkSlice (b0 :: b1 :: b2 :: b3 :: b4 :: body)).bytes.drop 5 =
      body := by
    rw [mkSlice_bytes]
    rfl
  constructor
  · simp only [decodeMessageValue]
    rw [if_neg hcap, hid, hs]
    dsimp only
    rw [if_neg hl5, hdrop, hdec]
  · rw [mkSlice_bytes]
    exact htxt

/-- Closed witness for `framed_payload_roundtrip` at a one-byte body. -/
theorem framed_payload_roundtrip_witness :
    1 ≤ ([42] : List Nat).length ∧
    (natCodec.nativeFromBinary [42]).1 = some 42 ∧
    natParse (natCodec.textualFromNative (some 42)).1 = some 42 ∧
    natRegistry.getSchema (beUint32 0 0 0 9) = Except.ok natCodec ∧
    decodeMessageValue natRegistry
        ⟨mkSlice (0 :: 0 :: 0 :: 0 :: 9 :: [42]), "topic", 0, 4⟩ =
      ([], GoOutcome.ok
        ⟨mkSlice (natCodec.textualFromNative (some 42)).1, "topic", 0, 4⟩) := by
  refine ⟨by decide, rfl, rfl, rfl, ?_⟩
  exact (framed_payload_roundtrip natRegistry natCodec natParse 42
    0 0 0 0 9 [42] "topic" 0 4 (by decide) rfl rfl rfl).1

/-- C5 counterexample: a valid framed payload whose schema-encoded body is
EMPTY (a legal Avro encoding, e.g. of the null type) is only 5 bytes long,
so the decode pipeline skips it: the payload is NOT replaced by the textual
form of the native value and does not reparse to it, even though the schema
id resolves and the codec round-trips. -/
theorem empty_body_roundtrip_cex :
    (cexCodec.nativeFromBinary []).1 = some () ∧
    cexParse (cexCodec.textualFromNative (some ())).1 = some () ∧
    cexRegistry.getSchema (beUint32 0 0 0 1) = Except.ok cexCodec ∧
    cexMsg.value = mkSlice (0 :: 0 :: 0 :: 0 :: 1 :: ([] : List Nat)) ∧
    decodeMessageValue cexRegistry cexMsg =
      (["Failed to get schema id from message: " ++ payloadStr cexMsg.value],
        GoOutcome.ok cexMsg) ∧
    cexParse cexMsg.value.bytes = none := by
  exact ⟨rfl, rfl, rfl, rfl, rfl, rfl⟩

/-- C7 (code bug): the package-level producer starts as a nil
`*kafka.Producer` and is only ever assigned inside the lazy-creation branch,
which is guarded by `producer.String() == ""`. But `(*Producer).String()`
dereferences its nil receiver, so evaluating the guard on the initial
singleton panics: every `Produce` call panics — whether `kafka.NewProducer`
would have succeeded or failed — and never returns the creation error, nor
nil after a flush, that the claim (and the lazily-created-singleton
contract) describes. -/
theorem produce_nil_singleton_panics (np : Except String ProducerConn)
    (topic m : String) :
    Produce none np topic m =
      GoOutcome.panicked
        "runtime error: invalid memory address or nil pointer dereference" :=
  rfl
